import Mathlib

/-!
Shallow embedding of `glance/common/signature_utils.py` (image signature
verification support for the Glance image registry).

Modelling conventions:
* Python dicts over string keys become association lists (`List (String × α)`)
  read through `dictGet` (first match wins; the dicts built by the code have
  unique keys), except the key-type registry, which is modelled as the
  function `String → Option SignatureKeyType` with pointwise update, matching
  dict assignment/lookup semantics exactly.
* `raise exception.SignatureVerificationError(...)` becomes `Except.error`
  carrying a `SigError` constructor named for the raise site's cause.
* External collaborators stay external, passed in as parameters:
  `oslo_serialization.base64.decode_as_bytes` is a `String → Option (List Nat)`
  (`none` models the `TypeError`/`binascii.Error` it may raise), the castellan
  key manager (together with the caller's `context`) is a
  `String → Option CastellanCert` (`none` models any exception from
  `keymgr_api.get`), and `datetime.datetime.utcnow()` is an explicit `now : Int`
  (seconds; only its ordering matters).
* `x509.load_der_x509_certificate(cert.get_encoded(), ...)` is modelled as the
  already-decoded `certificate` field of `CastellanCert`; no claim concerns a
  DER parse failure (which the source would not catch anyway).
* Cryptography objects (hash methods, MGFs, padding, verifiers, public keys)
  become inductive data recording exactly the arguments the source passes to
  the library constructors.
-/

/-- The signature hash methods: the values of the `HASH_METHODS` table
(`hashes.SHA224()` … `hashes.SHA512()`). -/
inductive HashMethod where
  | sha224
  | sha256
  | sha384
  | sha512
  deriving DecidableEq, Repr

/-- The public-key classes the module compares against with `isinstance`:
`rsa.RSAPublicKey`, `dsa.DSAPublicKey`, `ec.EllipticCurvePublicKey`. -/
inductive PubKeyClass where
  | RSAPublicKey
  | DSAPublicKey
  | EllipticCurvePublicKey
  deriving DecidableEq, Repr

/-- A concrete public key object; the payload is opaque key material, the
constructor records which of the three classes the object is an instance of. -/
inductive PublicKey where
  | rsa (keyId : Nat)
  | dsa (keyId : Nat)
  | ec (keyId : Nat)
  deriving DecidableEq, Repr

/-- The concrete class of a public key object (`isinstance` against one of the
three registered abstract classes holds exactly for that class). -/
def PublicKey.cls : PublicKey → PubKeyClass
  | .rsa _ => .RSAPublicKey
  | .dsa _ => .DSAPublicKey
  | .ec _ => .EllipticCurvePublicKey

/-- The distinct raise sites of `SignatureVerificationError` in the module,
one constructor per cause (spec §7 names: `MissingSignatureMetadata`,
`InvalidSignatureEncoding`, `UnsupportedAlgorithmName` — split here into its
two raise sites, hash table and MGF table —, `UnknownKeyType`,
`InvalidParameterValue` = `invalidPssSaltLength`, `CertificateRetrievalFailed`,
`CertificateFormatInvalid` (two raise sites), `CertificateNotYetValid`,
`CertificateExpired`, `KeyTypeMismatch`). -/
inductive SigError where
  | missingSignatureMetadata
  | invalidSignatureEncoding
  | unsupportedSignatureHashMethod (name : String)
  | unknownKeyType (name : String)
  | unsupportedMaskGenAlgorithm (name : String)
  | invalidPssSaltLength (value : String)
  | certificateRetrievalFailed (uuid : String)
  | certificateFormatInvalid (format : String)
  | certificateFormatUnsupported (format : String)
  | certificateNotYetValid (bound : Int)
  | certificateExpired (bound : Int)
  | keyTypeMismatch (keyTypeName : String)
  deriving DecidableEq, Repr

/-- A mask generation function object; `padding.MGF1(hash_method)`. -/
inductive MGF where
  | MGF1 (hash : HashMethod)
  deriving DecidableEq, Repr

/-- The `salt_length` argument of `padding.PSS`: either the sentinel
`padding.PSS.MAX_LENGTH` or a concrete integer. -/
inductive SaltLength where
  | maxLength
  | ofInt (n : Int)
  deriving DecidableEq, Repr

/-- `padding.PSS(mgf=…, salt_length=…)`. -/
structure PSSPadding where
  mgf : MGF
  salt_length : SaltLength
  deriving DecidableEq, Repr

/-- A verifier object, recording the arguments of the `public_key.verifier`
call that produced it: RSA-PSS (`signature, padding.PSS(...), hash`), ECDSA
(`signature, ec.ECDSA(hash)`), or DSA (`signature, hash`). -/
inductive Verifier where
  | pss (public_key : PublicKey) (signature : List Nat) (padding : PSSPadding)
      (hash : HashMethod)
  | ecdsa (public_key : PublicKey) (signature : List Nat) (hash : HashMethod)
  | dsa (public_key : PublicKey) (signature : List Nat) (hash : HashMethod)
  deriving DecidableEq, Repr

/-- Python dict lookup on an association list (first binding wins). -/
def dictGet {α : Type} : List (String × α) → String → Option α
  | [], _ => none
  | (k, v) :: rest, key => if k = key then some v else dictGet rest key

/-- Python `key in d`. -/
def containsKey {α : Type} (d : List (String × α)) (k : String) : Bool :=
  (dictGet d k).isSome

/-- The image-properties mapping (string keys to string values). -/
abbrev Metadata := List (String × String)

/-- `HASH_METHODS` table. -/
def HASH_METHODS : List (String × HashMethod) :=
  [("SHA-224", .sha224), ("SHA-256", .sha256),
   ("SHA-384", .sha384), ("SHA-512", .sha512)]

/-- `RSA_PSS = 'RSA-PSS'`. -/
def RSA_PSS : String := "RSA-PSS"

/-- `DSA = 'DSA'`. -/
def DSA : String := "DSA"

/-- The `.name` attributes of the curve objects in `ECC_CURVES`
(`ec.SECT571K1()` …). -/
def ECC_CURVES : List String :=
  ["sect571k1", "sect409k1", "sect571r1", "sect409r1", "secp521r1", "secp384r1"]

/-- `X_509 = 'X.509'`. -/
def X_509 : String := "X.509"

/-- `CERTIFICATE_FORMATS = {X_509}`. -/
def CERTIFICATE_FORMATS : List String := [X_509]

/-- `MASK_GEN_ALGORITHMS = {'MGF1': padding.MGF1}`: name to constructor
taking the hash method. -/
def MASK_GEN_ALGORITHMS : List (String × (HashMethod → MGF)) :=
  [("MGF1", MGF.MGF1)]

/-- `SIGNATURE = 'img_signature'`. -/
def SIGNATURE : String := "img_signature"

/-- `HASH_METHOD = 'img_signature_hash_method'`. -/
def HASH_METHOD : String := "img_signature_hash_method"

/-- `KEY_TYPE = 'img_signature_key_type'`. -/
def KEY_TYPE : String := "img_signature_key_type"

/-- `CERT_UUID = 'img_signature_certificate_uuid'`. -/
def CERT_UUID : String := "img_signature_certificate_uuid"

/-- `MASK_GEN_ALG = 'mask_gen_algorithm'`. -/
def MASK_GEN_ALG : String := "mask_gen_algorithm"

/-- `PSS_SALT_LENGTH = 'pss_salt_length'`. -/
def PSS_SALT_LENGTH : String := "pss_salt_length"

/-- The external base64 decoder (`oslo_serialization.base64.decode_as_bytes`);
`none` models the `TypeError` / `binascii.Error` it may raise. -/
abbrev B64Decoder := String → Option (List Nat)

/-- ASCII whitespace stripped by Python `int()` before parsing
(space, tab, newline, carriage return, vertical tab, form feed; non-ASCII
whitespace is outside the model). -/
def isPySpace (c : Char) : Bool :=
  c = ' ' || c = '\t' || c = '\n' || c = '\r' ||
    c = Char.ofNat 11 || c = Char.ofNat 12

/-- Strip `isPySpace` characters from both ends. -/
def trimPy (cs : List Char) : List Char :=
  ((cs.dropWhile isPySpace).reverse.dropWhile isPySpace).reverse

/-- ASCII decimal digit. -/
def isAsciiDigit (c : Char) : Bool :=
  decide ('0' ≤ c) && decide (c ≤ '9')

/-- Numeric value of an ASCII digit. -/
def digitVal (c : Char) : Nat := c.toNat - Char.toNat '0'

/-- Continue parsing a Python decimal literal after its first digit: each
subsequent character is a digit, or a single underscore followed by a digit
(Python 3.6+ underscore grouping); anything else fails. -/
def parseDigitsTail (acc : Nat) : List Char → Option Nat
  | [] => some acc
  | '_' :: c :: rest =>
      if isAsciiDigit c then parseDigitsTail (10 * acc + digitVal c) rest
      else none
  | ['_'] => none
  | c :: rest =>
      if isAsciiDigit c then parseDigitsTail (10 * acc + digitVal c) rest
      else none

/-- Parse a nonempty Python decimal digit sequence (underscores allowed only
between digits). -/
def parsePyDigits : List Char → Option Nat
  | [] => none
  | c :: rest =>
      if isAsciiDigit c then parseDigitsTail (digitVal c) rest else none

/-- Model of Python `int(s)` on an ASCII string: strip surrounding whitespace,
allow one optional `+`/`-` sign, then a digit sequence with optional single
underscores between digits; `none` models the `ValueError` Python raises. -/
def pythonInt (s : String) : Option Int :=
  match trimPy s.data with
  | '+' :: rest => (parsePyDigits rest).map (fun n => (n : Int))
  | '-' :: rest => (parsePyDigits rest).map (fun n => -(n : Int))
  | cs => (parsePyDigits cs).map (fun n => (n : Int))

/-- `class SignatureKeyType`: name, expected public-key class, and the
verifier-construction function for that key type. -/
structure SignatureKeyType where
  name : String
  public_key_type : PubKeyClass
  create_verifier :
    List Nat → HashMethod → PublicKey → Metadata → Except SigError Verifier

/-- `SignatureKeyType._REGISTERED_TYPES`, a dict from name to descriptor,
modelled as a partial function. -/
abbrev Registry := String → Option SignatureKeyType

/-- `SignatureKeyType.register`: `cls._REGISTERED_TYPES[name] = cls(name,
public_key_type, create_verifier)` — pointwise dict update. -/
def SignatureKeyType.register (reg : Registry) (name : String)
    (public_key_type : PubKeyClass)
    (create_verifier :
      List Nat → HashMethod → PublicKey → Metadata → Except SigError Verifier) :
    Registry :=
  fun n =>
    if n = name then some ⟨name, public_key_type, create_verifier⟩ else reg n

/-- `SignatureKeyType.lookup`: raise `UnknownKeyType` when the name is not in
the dict, otherwise return the stored descriptor. -/
def SignatureKeyType.lookup (reg : Registry) (name : String) :
    Except SigError SignatureKeyType :=
  match reg name with
  | none => .error (.unknownKeyType name)
  | some t => .ok t

/-- `create_verifier_for_pss`: resolve the optional `mask_gen_algorithm`
(default `padding.MGF1(hash_method)`), then the optional `pss_salt_length`
(default `padding.PSS.MAX_LENGTH`, else `int(...)` with `ValueError` mapped to
the `InvalidParameterValue` cause), then call
`public_key.verifier(signature, padding.PSS(mgf, salt_length), hash_method)`. -/
def create_verifier_for_pss (signature : List Nat) (hash_method : HashMethod)
    (public_key : PublicKey) (image_properties : Metadata) :
    Except SigError Verifier :=
  (match dictGet image_properties MASK_GEN_ALG with
   | some mask_gen_algorithm =>
     match dictGet MASK_GEN_ALGORITHMS mask_gen_algorithm with
     | none => Except.error (SigError.unsupportedMaskGenAlgorithm
         mask_gen_algorithm)
     | some mgfCtor => Except.ok (mgfCtor hash_method)
   | none => Except.ok (MGF.MGF1 hash_method)).bind fun mgf =>
  (match dictGet image_properties PSS_SALT_LENGTH with
   | some pss_salt_length =>
     match pythonInt pss_salt_length with
     | none => Except.error (SigError.invalidPssSaltLength pss_salt_length)
     | some n => Except.ok (SaltLength.ofInt n)
   | none => Except.ok SaltLength.maxLength).bind fun salt_length =>
  Except.ok (Verifier.pss public_key signature ⟨mgf, salt_length⟩ hash_method)

/-- `create_verifier_for_ecc`: `public_key.verifier(signature,
ec.ECDSA(hash_method))`. -/
def create_verifier_for_ecc (signature : List Nat) (hash_method : HashMethod)
    (public_key : PublicKey) (_image_properties : Metadata) :
    Except SigError Verifier :=
  Except.ok (Verifier.ecdsa public_key signature hash_method)

/-- `create_verifier_for_dsa`: `public_key.verifier(signature, hash_method)`. -/
def create_verifier_for_dsa (signature : List Nat) (hash_method : HashMethod)
    (public_key : PublicKey) (_image_properties : Metadata) :
    Except SigError Verifier :=
  Except.ok (Verifier.dsa public_key signature hash_method)

/-- The registry before any `register` call. -/
def emptyRegistry : Registry := fun _ => none

/-- Module initialisation: register `RSA-PSS` and `DSA`, then
`'ECC_' + curve.name.upper()` for each candidate curve the backend supports
(`default_backend().elliptic_curve_supported(curve)` is the parameter
`eccSupported`); unsupported curves are silently skipped. -/
def initRegistry (eccSupported : String → Bool) : Registry :=
  let r := SignatureKeyType.register emptyRegistry RSA_PSS
    .RSAPublicKey create_verifier_for_pss
  let r := SignatureKeyType.register r DSA .DSAPublicKey create_verifier_for_dsa
  ECC_CURVES.foldl
    (fun r curve =>
      if eccSupported curve then
        SignatureKeyType.register r ("ECC_" ++ curve.toUpper)
          .EllipticCurvePublicKey create_verifier_for_ecc
      else r) r

/-- An X.509 certificate object: the `not_valid_before` / `not_valid_after`
UTC instants and the `public_key()` it embeds. -/
structure Cert where
  not_valid_before : Int
  not_valid_after : Int
  public_key : PublicKey
  deriving DecidableEq, Repr

/-- The castellan certificate object returned by the key manager: a `format`
tag and the certificate its DER bytes decode to (decoding is modelled as
already done; no claim concerns a DER parse failure). -/
structure CastellanCert where
  format : String
  certificate : Cert
  deriving Repr

/-- The castellan key-manager collaborator together with the caller's
`context`: `keymgr_api.get(context, uuid)`; `none` models any exception. -/
abbrev KeyManager := String → Option CastellanCert

/-- `verify_certificate(certificate)` with `datetime.datetime.utcnow()`
passed explicitly as `now`: raise `CertificateNotYetValid` when
`now < not_valid_before`, elif raise `CertificateExpired` when
`now > not_valid_after`, else succeed. -/
def verify_certificate (certificate : Cert) (now : Int) : Except SigError Unit :=
  if now < certificate.not_valid_before then
    .error (.certificateNotYetValid certificate.not_valid_before)
  else if now > certificate.not_valid_after then
    .error (.certificateExpired certificate.not_valid_after)
  else
    .ok ()

/-- `get_certificate(context, signature_certificate_uuid)`: fetch from the key
manager (any failure becomes `CertificateRetrievalFailed`), reject a format
outside `CERTIFICATE_FORMATS`, decode the `X.509` branch, run
`verify_certificate`, and return the certificate. The final `else` raise
(`Certificate format not supported`) is unreachable since the format set is
exactly `{X.509}`. -/
def get_certificate (km : KeyManager) (now : Int)
    (signature_certificate_uuid : String) : Except SigError Cert :=
  match km signature_certificate_uuid with
  | none => .error (.certificateRetrievalFailed signature_certificate_uuid)
  | some cert =>
    if CERTIFICATE_FORMATS.contains cert.format then
      if cert.format = X_509 then
        match verify_certificate cert.certificate now with
        | .error e => .error e
        | .ok _ => .ok cert.certificate
      else
        .error (.certificateFormatUnsupported cert.format)
    else
      .error (.certificateFormatInvalid cert.format)

/-- `get_public_key(context, signature_certificate_uuid, signature_key_type)`:
fetch and validate the certificate, take `certificate.public_key()`, and
raise `KeyTypeMismatch` unless it is an instance of the descriptor's
`public_key_type`. -/
def get_public_key (km : KeyManager) (now : Int)
    (signature_certificate_uuid : String)
    (signature_key_type : SignatureKeyType) : Except SigError PublicKey :=
  match get_certificate km now signature_certificate_uuid with
  | .error e => .error e
  | .ok certificate =>
    if certificate.public_key.cls = signature_key_type.public_key_type then
      .ok certificate.public_key
    else
      .error (.keyTypeMismatch signature_key_type.name)

/-- `get_signature(signature_data)`: base64-decode, mapping a decode failure
to the `InvalidSignatureEncoding` cause. -/
def get_signature (b64 : B64Decoder) (signature_data : String) :
    Except SigError (List Nat) :=
  match b64 signature_data with
  | none => .error .invalidSignatureEncoding
  | some signature => .ok signature

/-- `get_hash_method(hash_method_name)`: look the name up in `HASH_METHODS`,
raising for an unknown name. -/
def get_hash_method (hash_method_name : String) : Except SigError HashMethod :=
  match dictGet HASH_METHODS hash_method_name with
  | none => .error (.unsupportedSignatureHashMethod hash_method_name)
  | some h => .ok h

/-- `should_create_verifier(image_properties)`: the mapping is not `None` and
all four required keys are present. -/
def should_create_verifier : Option Metadata → Bool
  | none => false
  | some props =>
    containsKey props CERT_UUID && containsKey props HASH_METHOD &&
      containsKey props SIGNATURE && containsKey props KEY_TYPE

/-- `get_verifier(context, image_properties)`: guard on
`should_create_verifier` (else `MissingSignatureMetadata`), then in order
decode the signature, resolve the hash method, look up the key type, resolve
the public key, and call the key type's `create_verifier`. The two inner
fallback branches mirror the guard and are unreachable when it holds (Python
indexes the dict directly; the guard rules out `KeyError`). The
`crypto_exception.UnsupportedAlgorithm` handler and the falsy-verifier branch
are not modelled: the modelled constructors return verifier objects, which
are always truthy. -/
def get_verifier (b64 : B64Decoder) (km : KeyManager) (now : Int)
    (registry : Registry) (image_properties : Option Metadata) :
    Except SigError Verifier :=
  if should_create_verifier image_properties then
    match image_properties with
    | none => .error SigError.missingSignatureMetadata
    | some props =>
      match dictGet props SIGNATURE, dictGet props HASH_METHOD,
            dictGet props KEY_TYPE, dictGet props CERT_UUID with
      | some sd, some hn, some kn, some cu =>
        (get_signature b64 sd).bind fun signature =>
        (get_hash_method hn).bind fun hash_method =>
        (SignatureKeyType.lookup registry kn).bind fun signature_key_type =>
        (get_public_key km now cu signature_key_type).bind fun public_key =>
        signature_key_type.create_verifier signature hash_method public_key
          props
      | _, _, _, _ => .error SigError.missingSignatureMetadata
  else
    .error SigError.missingSignatureMetadata

/-! ### Helper lemmas -/

/-- `verify_certificate` succeeds exactly on instants inside the validity
window (both bounds inclusive). -/
theorem verify_certificate_ok_iff (c : Cert) (now : Int) :
    verify_certificate c now = .ok () ↔
      (c.not_valid_before ≤ now ∧ now ≤ c.not_valid_after) := by
  unfold verify_certificate
  by_cases h1 : now < c.not_valid_before
  · simp [h1]
  · by_cases h2 : now > c.not_valid_after
    · simp [h1, h2]
    · simp [h1, h2]
      omega

/-- Any error from `verify_certificate` is a validity-window error. -/
theorem verify_certificate_error_shape (c : Cert) (now : Int) (e : SigError)
    (h : verify_certificate c now = .error e) :
    e = .certificateNotYetValid c.not_valid_before ∨
      e = .certificateExpired c.not_valid_after := by
  unfold verify_certificate at h
  split at h
  · injection h with h'
    exact Or.inl h'.symm
  · split at h
    · injection h with h'
      exact Or.inr h'.symm
    · cases h

/-- A certificate returned by `get_certificate` passed `verify_certificate`
at the same instant. -/
theorem get_certificate_ok_valid (km : KeyManager) (now : Int) (u : String)
    (c : Cert) (h : get_certificate km now u = .ok c) :
    verify_certificate c now = .ok () := by
  unfold get_certificate at h
  cases hk : km u with
  | none => rw [hk] at h; cases h
  | some cc =>
    simp only [hk] at h
    by_cases hf : CERTIFICATE_FORMATS.contains cc.format = true
    · rw [if_pos hf] at h
      by_cases hx : cc.format = X_509
      · rw [if_pos hx] at h
        cases hv : verify_certificate cc.certificate now with
        | error e => rw [hv] at h; cases h
        | ok v =>
          rw [hv] at h
          injection h with h'
          cases v
          rw [← h']
          exact hv
      · rw [if_neg hx] at h; cases h
    · rw [if_neg hf] at h; cases h

/-- A key returned by `get_public_key` comes from a certificate that
`get_certificate` returned (and hence that passed validation). -/
theorem get_public_key_ok_elim (km : KeyManager) (now : Int) (u : String)
    (skt : SignatureKeyType) (pk : PublicKey)
    (h : get_public_key km now u skt = .ok pk) :
    ∃ c : Cert, get_certificate km now u = .ok c ∧ pk = c.public_key ∧
      pk.cls = skt.public_key_type := by
  unfold get_public_key at h
  cases hc : get_certificate km now u with
  | error e => rw [hc] at h; cases h
  | ok c =>
    simp only [hc] at h
    by_cases hcls : c.public_key.cls = skt.public_key_type
    · rw [if_pos hcls] at h
      injection h with h'
      exact ⟨c, rfl, h'.symm, h' ▸ hcls⟩
    · rw [if_neg hcls] at h; cases h

/-! ### Claim theorems -/

/-- Claim C1: whenever `get_certificate` returns a certificate (in particular
to `get_public_key` inside `get_verifier`), `verify_certificate` has already
succeeded on it at the same instant, so a certificate outside its validity
window is never returned and its key is never used: every key
`get_public_key` returns is the public key of a certificate that
`get_certificate` returned after a successful validity check. -/
theorem c1_validity_checked_before_key_use (km : KeyManager) (now : Int)
    (uuid : String) :
    (∀ c : Cert, get_certificate km now uuid = .ok c →
      verify_certificate c now = .ok () ∧
        c.not_valid_before ≤ now ∧ now ≤ c.not_valid_after) ∧
    (∀ (skt : SignatureKeyType) (pk : PublicKey),
      get_public_key km now uuid skt = .ok pk →
      ∃ c : Cert, get_certificate km now uuid = .ok c ∧ pk = c.public_key ∧
        verify_certificate c now = .ok ()) := by
  constructor
  · intro c h
    have hv := get_certificate_ok_valid km now uuid c h
    have hw := (verify_certificate_ok_iff c now).mp hv
    exact ⟨hv, hw⟩
  · intro skt pk h
    obtain ⟨c, hc, hpk, _⟩ := get_public_key_ok_elim km now uuid skt pk h
    exact ⟨c, hc, hpk, get_certificate_ok_valid km now uuid c hc⟩

/-- Witness for C1 at a concrete in-window certificate. -/
theorem c1_validity_checked_before_key_use_witness :
    get_certificate (fun _ => some ⟨X_509, ⟨0, 10, PublicKey.rsa 3⟩⟩) 5 "u" =
      .ok ⟨0, 10, PublicKey.rsa 3⟩ ∧
    (verify_certificate ⟨0, 10, PublicKey.rsa 3⟩ 5 = .ok () ∧
      (0 : Int) ≤ 5 ∧ (5 : Int) ≤ 10) :=
  ⟨rfl,
   (c1_validity_checked_before_key_use
      (fun _ => some ⟨X_509, ⟨0, 10, PublicKey.rsa 3⟩⟩) 5 "u").1
     ⟨0, 10, PublicKey.rsa 3⟩ rfl⟩

/-- Claim C2: `get_public_key` raises the `KeyTypeMismatch`-cause error on any
mismatch between the concrete class of the certificate's key and the
descriptor's expected class, and any key it does return matches the expected
class — so a verifier constructor never runs on a mismatched key. -/
theorem c2_key_type_mismatch_rejected (km : KeyManager) (now : Int)
    (uuid : String) (skt : SignatureKeyType) :
    (∀ c : Cert, get_certificate km now uuid = .ok c →
      c.public_key.cls ≠ skt.public_key_type →
      get_public_key km now uuid skt = .error (.keyTypeMismatch skt.name)) ∧
    (∀ pk : PublicKey, get_public_key km now uuid skt = .ok pk →
      pk.cls = skt.public_key_type) := by
  constructor
  · intro c hc hne
    unfold get_public_key
    simp only [hc]
    rw [if_neg hne]
  · intro pk h
    obtain ⟨_, _, _, hcls⟩ := get_public_key_ok_elim km now uuid skt pk h
    exact hcls

/-- Witness for C2: a DSA public key presented under the `RSA-PSS` key-type
descriptor is rejected with `KeyTypeMismatch`. -/
theorem c2_key_type_mismatch_rejected_witness :
    get_public_key (fun _ => some ⟨X_509, ⟨0, 10, PublicKey.dsa 7⟩⟩) 5 "cert-1"
      ⟨RSA_PSS, .RSAPublicKey, create_verifier_for_pss⟩ =
      .error (.keyTypeMismatch RSA_PSS) :=
  (c2_key_type_mismatch_rejected (fun _ => some ⟨X_509, ⟨0, 10, PublicKey.dsa 7⟩⟩)
      5 "cert-1" ⟨RSA_PSS, .RSAPublicKey, create_verifier_for_pss⟩).1
    ⟨0, 10, PublicKey.dsa 7⟩ rfl (by decide)

/-- Claim C3 (as stated) is false on a certificate whose window is degenerate
(`not_valid_after < not_valid_before`): at `now = not_valid_before = 1` (an
instant equal to a bound, which the claim says must validate) the code raises
`CertificateExpired`, and at `now = 1 > not_valid_after = 0` (where the claim
says the `CertificateExpired` failure must occur) a certificate with
`not_valid_before = 2` raises `CertificateNotYetValid` instead, because the
`now < not_valid_before` check runs first. -/
theorem c3_degenerate_window_counterexample :
    verify_certificate ⟨1, 0, PublicKey.rsa 0⟩ 1 =
        .error (.certificateExpired 0) ∧
    (1 : Int) = (Cert.mk 1 0 (PublicKey.rsa 0)).not_valid_before ∧
    verify_certificate ⟨2, 0, PublicKey.rsa 0⟩ 1 =
        .error (.certificateNotYetValid 2) ∧
    (1 : Int) > (Cert.mk 2 0 (PublicKey.rsa 0)).not_valid_after :=
  ⟨rfl, rfl, rfl, by decide⟩

/-- Claim C3, amended for the `elif` precedence: `verify_certificate` fails
with `CertificateNotYetValid` iff `now < not_valid_before`; otherwise it
fails with `CertificateExpired` iff `now > not_valid_after`; it succeeds iff
`not_valid_before ≤ now ≤ not_valid_after` — so for every certificate whose
window is non-degenerate (`not_valid_before ≤ not_valid_after`) both bounds
are inclusive under strict comparison exactly as the claim states. -/
theorem c3_validity_window_boundaries (c : Cert) (now : Int) :
    (verify_certificate c now =
        .error (.certificateNotYetValid c.not_valid_before) ↔
      now < c.not_valid_before) ∧
    (verify_certificate c now = .error (.certificateExpired c.not_valid_after) ↔
      (c.not_valid_before ≤ now ∧ c.not_valid_after < now)) ∧
    (verify_certificate c now = .ok () ↔
      (c.not_valid_before ≤ now ∧ now ≤ c.not_valid_after)) := by
  unfold verify_certificate
  by_cases h1 : now < c.not_valid_before
  · simp [h1]
  · by_cases h2 : now > c.not_valid_after
    · simp [h1, h2]
      omega
    · simp [h1, h2]
      omega

/-- Witness for the amended C3 at the spec's own boundary examples. -/
theorem c3_validity_window_boundaries_witness :
    verify_certificate ⟨(-1), 1, PublicKey.rsa 0⟩ 0 = .ok () ∧
    verify_certificate ⟨1, 3, PublicKey.rsa 0⟩ 0 =
      .error (.certificateNotYetValid 1) ∧
    verify_certificate ⟨(-3), (-1), PublicKey.rsa 0⟩ 0 =
      .error (.certificateExpired (-1)) :=
  ⟨((c3_validity_window_boundaries ⟨(-1), 1, PublicKey.rsa 0⟩ 0).2.2).mpr
      (by decide),
   ((c3_validity_window_boundaries ⟨1, 3, PublicKey.rsa 0⟩ 0).1).mpr (by decide),
   ((c3_validity_window_boundaries ⟨(-3), (-1), PublicKey.rsa 0⟩ 0).2.1).mpr
      (by decide)⟩

/-- Claim C7: `SignatureKeyType.lookup` fails with the `UnknownKeyType` cause
exactly on names absent from the registered-types table, and returns the
stored descriptor unchanged for registered names. -/
theorem c7_lookup_registered_or_fails (reg : Registry) (name : String) :
    (reg name = none →
      SignatureKeyType.lookup reg name = .error (.unknownKeyType name)) ∧
    (∀ t : SignatureKeyType, reg name = some t →
      SignatureKeyType.lookup reg name = .ok t) := by
  constructor
  · intro h
    unfold SignatureKeyType.lookup
    rw [h]
  · intro t h
    unfold SignatureKeyType.lookup
    rw [h]

/-- Witness for C7 on the initialised registry: an unregistered name fails,
`RSA-PSS` returns its stored descriptor. -/
theorem c7_lookup_registered_or_fails_witness :
    SignatureKeyType.lookup (initRegistry (fun _ => false)) "no-such-type" =
      .error (.unknownKeyType "no-such-type") ∧
    SignatureKeyType.lookup (initRegistry (fun _ => false)) RSA_PSS =
      .ok ⟨RSA_PSS, .RSAPublicKey, create_verifier_for_pss⟩ :=
  ⟨(c7_lookup_registered_or_fails (initRegistry (fun _ => false))
      "no-such-type").1 rfl,
   (c7_lookup_registered_or_fails (initRegistry (fun _ => false)) RSA_PSS).2
      ⟨RSA_PSS, .RSAPublicKey, create_verifier_for_pss⟩ rfl⟩

/-- Claim C8: `SignatureKeyType.register` has last-write-wins semantics:
after registering the same name twice, lookup yields the descriptor of the
second call, and every other name's binding is unchanged. -/
theorem c8_register_last_write_wins (reg : Registry) (name : String)
    (pkt1 pkt2 : PubKeyClass)
    (cv1 cv2 : List Nat → HashMethod → PublicKey → Metadata →
      Except SigError Verifier) :
    (SignatureKeyType.lookup
        (SignatureKeyType.register (SignatureKeyType.register reg name pkt1 cv1)
          name pkt2 cv2) name = .ok ⟨name, pkt2, cv2⟩) ∧
    (∀ other : String, other ≠ name →
      SignatureKeyType.register (SignatureKeyType.register reg name pkt1 cv1)
          name pkt2 cv2 other = reg other) := by
  constructor
  · simp [SignatureKeyType.lookup, SignatureKeyType.register]
  · intro other h
    simp [SignatureKeyType.register, h]

/-- Witness for C8 at a concrete double registration. -/
theorem c8_register_last_write_wins_witness :
    SignatureKeyType.lookup
        (SignatureKeyType.register
          (SignatureKeyType.register emptyRegistry "K" .RSAPublicKey
            create_verifier_for_pss)
          "K" .DSAPublicKey create_verifier_for_dsa) "K" =
      .ok ⟨"K", .DSAPublicKey, create_verifier_for_dsa⟩ ∧
    SignatureKeyType.register
        (SignatureKeyType.register emptyRegistry "K" .RSAPublicKey
          create_verifier_for_pss)
        "K" .DSAPublicKey create_verifier_for_dsa "L" = emptyRegistry "L" :=
  ⟨(c8_register_last_write_wins emptyRegistry "K" .RSAPublicKey .DSAPublicKey
      create_verifier_for_pss create_verifier_for_dsa).1,
   (c8_register_last_write_wins emptyRegistry "K" .RSAPublicKey .DSAPublicKey
      create_verifier_for_pss create_verifier_for_dsa).2 "L" (by decide)⟩

/-- Claim C9: a `None` image-properties mapping does not crash:
`should_create_verifier` returns `False` on it, and `get_verifier` raises the
same `MissingSignatureMetadata`-cause error as for an incomplete mapping. -/
theorem c9_none_properties_rejected (b64 : B64Decoder) (km : KeyManager)
    (now : Int) (registry : Registry) :
    should_create_verifier none = false ∧
    get_verifier b64 km now registry none =
      .error SigError.missingSignatureMetadata :=
  ⟨rfl, rfl⟩

/-! ### Error-shape helpers for the `get_verifier` pipeline -/

/-- `Except.bind` of an error. -/
theorem except_error_bind {α β : Type} (e : SigError)
    (f : α → Except SigError β) :
    (Except.error e : Except SigError α).bind f = .error e := rfl

/-- `Except.bind` of a success. -/
theorem except_ok_bind {α β : Type} (a : α) (f : α → Except SigError β) :
    (Except.ok a : Except SigError α).bind f = f a := rfl

/-- A bound pipeline avoids an error value when both stages do. -/
theorem except_bind_ne_error {α β : Type} (x : Except SigError α)
    (f : α → Except SigError β) (e : SigError)
    (hx : ∀ e2, x = .error e2 → e2 ≠ e)
    (hf : ∀ a, x = .ok a → f a ≠ .error e) :
    x.bind f ≠ .error e := by
  intro hbad
  cases x with
  | error e2 =>
    simp only [except_error_bind] at hbad
    injection hbad with h'
    exact hx e2 rfl h'
  | ok a =>
    simp only [except_ok_bind] at hbad
    exact hf a rfl hbad

/-- The only error `get_signature` raises is `InvalidSignatureEncoding`. -/
theorem get_signature_error_shape (b64 : B64Decoder) (sd : String)
    (e : SigError) (h : get_signature b64 sd = .error e) :
    e = .invalidSignatureEncoding := by
  unfold get_signature at h
  cases hb : b64 sd with
  | none => simp only [hb] at h; injection h with h'; exact h'.symm
  | some s => simp only [hb] at h; cases h

/-- The only error `get_hash_method` raises is the unsupported-hash one, for
the requested name. -/
theorem get_hash_method_error_shape (hn : String) (e : SigError)
    (h : get_hash_method hn = .error e) :
    e = .unsupportedSignatureHashMethod hn := by
  unfold get_hash_method at h
  cases hd : dictGet HASH_METHODS hn with
  | none => simp only [hd] at h; injection h with h'; exact h'.symm
  | some v => simp only [hd] at h; cases h

/-- The only error `SignatureKeyType.lookup` raises is `UnknownKeyType`, for
the requested name. -/
theorem lookup_error_shape (reg : Registry) (kn : String) (e : SigError)
    (h : SignatureKeyType.lookup reg kn = .error e) :
    e = .unknownKeyType kn := by
  unfold SignatureKeyType.lookup at h
  cases hr : reg kn with
  | none => simp only [hr] at h; injection h with h'; exact h'.symm
  | some t => simp only [hr] at h; cases h

/-- A successful lookup means the name is bound to that descriptor. -/
theorem lookup_ok_elim (reg : Registry) (kn : String) (skt : SignatureKeyType)
    (h : SignatureKeyType.lookup reg kn = .ok skt) : reg kn = some skt := by
  unfold SignatureKeyType.lookup at h
  cases hr : reg kn with
  | none => simp only [hr] at h; cases h
  | some t => simp only [hr] at h; injection h with h'; rw [h']

/-- `get_certificate` never raises the missing-metadata cause. -/
theorem get_certificate_error_ne_missing (km : KeyManager) (now : Int)
    (u : String) (e : SigError) (h : get_certificate km now u = .error e) :
    e ≠ SigError.missingSignatureMetadata := by
  unfold get_certificate at h
  cases hk : km u with
  | none =>
    simp only [hk] at h
    injection h with h'
    rw [← h']
    simp
  | some cc =>
    simp only [hk] at h
    by_cases hf : CERTIFICATE_FORMATS.contains cc.format = true
    · rw [if_pos hf] at h
      by_cases hx : cc.format = X_509
      · rw [if_pos hx] at h
        cases hv : verify_certificate cc.certificate now with
        | error e2 =>
          rw [hv] at h
          injection h with h'
          rcases verify_certificate_error_shape _ _ _ hv with h2 | h2 <;>
            rw [← h', h2] <;> simp
        | ok v => rw [hv] at h; cases h
      · rw [if_neg hx] at h
        injection h with h'
        rw [← h']
        simp
    · rw [if_neg hf] at h
      injection h with h'
      rw [← h']
      simp

/-- `get_public_key` never raises the missing-metadata cause. -/
theorem get_public_key_error_ne_missing (km : KeyManager) (now : Int)
    (u : String) (skt : SignatureKeyType) (e : SigError)
    (h : get_public_key km now u skt = .error e) :
    e ≠ SigError.missingSignatureMetadata := by
  unfold get_public_key at h
  cases hc : get_certificate km now u with
  | error e2 =>
    simp only [hc] at h
    injection h with h'
    rw [← h']
    exact get_certificate_error_ne_missing km now u e2 hc
  | ok c =>
    simp only [hc] at h
    by_cases hcls : c.public_key.cls = skt.public_key_type
    · rw [if_pos hcls] at h; cases h
    · rw [if_neg hcls] at h
      injection h with h'
      rw [← h']
      simp

/-- The only errors `create_verifier_for_pss` raises are the bad-MGF-name and
bad-salt-length ones. -/
theorem create_verifier_for_pss_error_shape (sig : List Nat) (hm : HashMethod)
    (pk : PublicKey) (props : Metadata) (e : SigError)
    (h : create_verifier_for_pss sig hm pk props = .error e) :
    (∃ m, e = .unsupportedMaskGenAlgorithm m) ∨
      (∃ s, e = .invalidPssSaltLength s) := by
  unfold create_verifier_for_pss at h
  cases hm1 : dictGet props MASK_GEN_ALG with
  | some m =>
    simp only [hm1] at h
    cases hm2 : dictGet MASK_GEN_ALGORITHMS m with
    | none =>
      simp only [hm2, except_error_bind] at h
      injection h with h'
      exact Or.inl ⟨m, h'.symm⟩
    | some ctor =>
      simp only [hm2, except_ok_bind] at h
      cases hs1 : dictGet props PSS_SALT_LENGTH with
      | some s =>
        simp only [hs1] at h
        cases hp : pythonInt s with
        | none =>
          simp only [hp, except_error_bind] at h
          injection h with h'
          exact Or.inr ⟨s, h'.symm⟩
        | some n => simp only [hp, except_ok_bind] at h; cases h
      | none => simp only [hs1, except_ok_bind] at h; cases h
  | none =>
    simp only [hm1, except_ok_bind] at h
    cases hs1 : dictGet props PSS_SALT_LENGTH with
    | some s =>
      simp only [hs1] at h
      cases hp : pythonInt s with
      | none =>
        simp only [hp, except_error_bind] at h
        injection h with h'
        exact Or.inr ⟨s, h'.symm⟩
      | some n => simp only [hp, except_ok_bind] at h; cases h
    | none => simp only [hs1, except_ok_bind] at h; cases h

/-- The verifier constructors the module ever registers. -/
def GoodCtor (cv : List Nat → HashMethod → PublicKey → Metadata →
    Except SigError Verifier) : Prop :=
  cv = create_verifier_for_pss ∨ cv = create_verifier_for_dsa ∨
    cv = create_verifier_for_ecc

/-- Every descriptor in the registry has one of the module's constructors. -/
def GoodReg (reg : Registry) : Prop :=
  ∀ name skt, reg name = some skt → GoodCtor skt.create_verifier

/-- `register` preserves `GoodReg` when the new constructor is one of the
module's. -/
theorem goodReg_register (reg : Registry) (hreg : GoodReg reg) (name : String)
    (pkt : PubKeyClass)
    (cv : List Nat → HashMethod → PublicKey → Metadata →
      Except SigError Verifier) (hcv : GoodCtor cv) :
    GoodReg (SignatureKeyType.register reg name pkt cv) := by
  intro n skt h
  unfold SignatureKeyType.register at h
  by_cases hn : n = name
  · rw [if_pos hn] at h
    injection h with h'
    rw [← h']
    exact hcv
  · rw [if_neg hn] at h
    exact hreg n skt h

/-- The elliptic-curve registration loop preserves `GoodReg`. -/
theorem goodReg_ecc_foldl (eccSupported : String → Bool) (l : List String)
    (reg : Registry) (hreg : GoodReg reg) :
    GoodReg (l.foldl
      (fun r curve =>
        if eccSupported curve then
          SignatureKeyType.register r ("ECC_" ++ curve.toUpper)
            .EllipticCurvePublicKey create_verifier_for_ecc
        else r) reg) := by
  induction l generalizing reg with
  | nil => exact hreg
  | cons c cs ih =>
    simp only [List.foldl]
    apply ih
    by_cases hc : eccSupported c = true
    · rw [if_pos hc]
      exact goodReg_register reg hreg _ _ _ (Or.inr (Or.inr rfl))
    · rw [if_neg hc]
      exact hreg

/-- The initialised registry only holds the module's constructors. -/
theorem goodReg_init (eccSupported : String → Bool) :
    GoodReg (initRegistry eccSupported) := by
  unfold initRegistry
  apply goodReg_ecc_foldl
  apply goodReg_register
  · apply goodReg_register
    · intro n skt h
      cases h
    · exact Or.inl rfl
  · exact Or.inr (Or.inl rfl)

/-- None of the module's verifier constructors raises the missing-metadata
cause. -/
theorem good_ctor_error_ne_missing
    (cv : List Nat → HashMethod → PublicKey → Metadata →
      Except SigError Verifier) (hcv : GoodCtor cv) (sig : List Nat)
    (hm : HashMethod) (pk : PublicKey) (props : Metadata) (e : SigError)
    (h : cv sig hm pk props = .error e) :
    e ≠ SigError.missingSignatureMetadata := by
  rcases hcv with h1 | h1 | h1 <;> subst h1
  · rcases create_verifier_for_pss_error_shape sig hm pk props e h with
      ⟨m, hm2⟩ | ⟨s, hs2⟩
    · rw [hm2]; simp
    · rw [hs2]; simp
  · unfold create_verifier_for_dsa at h; cases h
  · unfold create_verifier_for_ecc at h; cases h

/-- `get_verifier` fails with the missing-metadata error whenever the guard
fails. -/
theorem get_verifier_missing (b64 : B64Decoder) (km : KeyManager) (now : Int)
    (registry : Registry) (ip : Option Metadata)
    (h : should_create_verifier ip = false) :
    get_verifier b64 km now registry ip =
      .error SigError.missingSignatureMetadata := by
  unfold get_verifier
  rw [h]
  simp

/-- When the four required fields are present, `get_verifier` is the
sequenced pipeline over their values. -/
theorem get_verifier_eq_of_fields (b64 : B64Decoder) (km : KeyManager)
    (now : Int) (registry : Registry) (props : Metadata) (sd hn kn cu : String)
    (hs : dictGet props SIGNATURE = some sd)
    (hh : dictGet props HASH_METHOD = some hn)
    (hk : dictGet props KEY_TYPE = some kn)
    (hc : dictGet props CERT_UUID = some cu) :
    get_verifier b64 km now registry (some props) =
      ((get_signature b64 sd).bind fun signature =>
       (get_hash_method hn).bind fun hash_method =>
       (SignatureKeyType.lookup registry kn).bind fun signature_key_type =>
       (get_public_key km now cu signature_key_type).bind fun public_key =>
       signature_key_type.create_verifier signature hash_method public_key
         props) := by
  have hguard : should_create_verifier (some props) = true := by
    simp [should_create_verifier, containsKey, hs, hh, hk, hc]
  unfold get_verifier
  simp [hguard, hs, hh, hk, hc]

/-- Claim C4: with the module's initialised registry, `get_verifier` raises
the `MissingSignatureMetadata`-cause error whenever any of the four required
keys is absent (regardless of which), and never raises that cause when all
four are present. -/
theorem c4_missing_required_fields (b64 : B64Decoder) (km : KeyManager)
    (now : Int) (eccSupported : String → Bool) (props : Metadata) :
    (¬ (containsKey props SIGNATURE = true ∧
        containsKey props HASH_METHOD = true ∧
        containsKey props KEY_TYPE = true ∧
        containsKey props CERT_UUID = true) →
      get_verifier b64 km now (initRegistry eccSupported) (some props) =
        .error SigError.missingSignatureMetadata) ∧
    ((containsKey props SIGNATURE = true ∧
        containsKey props HASH_METHOD = true ∧
        containsKey props KEY_TYPE = true ∧
        containsKey props CERT_UUID = true) →
      get_verifier b64 km now (initRegistry eccSupported) (some props) ≠
        .error SigError.missingSignatureMetadata) := by
  constructor
  · intro hmiss
    apply get_verifier_missing
    cases hA : containsKey props CERT_UUID <;>
      cases hB : containsKey props HASH_METHOD <;>
        cases hC : containsKey props SIGNATURE <;>
          cases hD : containsKey props KEY_TYPE <;>
            simp_all [should_create_verifier]
  · rintro ⟨h1, h2, h3, h4⟩
    rw [containsKey] at h1 h2 h3 h4
    obtain ⟨sd, hs⟩ := Option.isSome_iff_exists.mp h1
    obtain ⟨hn, hh⟩ := Option.isSome_iff_exists.mp h2
    obtain ⟨kn, hk⟩ := Option.isSome_iff_exists.mp h3
    obtain ⟨cu, hc⟩ := Option.isSome_iff_exists.mp h4
    rw [get_verifier_eq_of_fields b64 km now (initRegistry eccSupported) props
      sd hn kn cu hs hh hk hc]
    apply except_bind_ne_error
    · intro e2 he2
      rw [get_signature_error_shape b64 sd e2 he2]
      simp
    · intro sig _
      apply except_bind_ne_error
      · intro e2 he2
        rw [get_hash_method_error_shape hn e2 he2]
        simp
      · intro hmv _
        apply except_bind_ne_error
        · intro e2 he2
          rw [lookup_error_shape (initRegistry eccSupported) kn e2 he2]
          simp
        · intro skt hskt
          apply except_bind_ne_error
          · intro e2 he2
            exact get_public_key_error_ne_missing km now cu skt e2 he2
          · intro pk _
            intro hbad
            have hgood := goodReg_init eccSupported kn skt
              (lookup_ok_elim (initRegistry eccSupported) kn skt hskt)
            exact good_ctor_error_ne_missing skt.create_verifier hgood sig hmv
              pk props SigError.missingSignatureMetadata hbad rfl

/-- Witness for C4: metadata missing only the signature key fails with the
missing-metadata cause; complete metadata does not produce that cause. -/
theorem c4_missing_required_fields_witness :
    get_verifier (fun _ => some [0]) (fun _ => none) 0
      (initRegistry (fun _ => false))
      (some [(HASH_METHOD, "SHA-256"), (KEY_TYPE, "RSA-PSS"),
        (CERT_UUID, "u")]) =
      .error SigError.missingSignatureMetadata ∧
    get_verifier (fun _ => some [0]) (fun _ => none) 0
      (initRegistry (fun _ => false))
      (some [(SIGNATURE, "s"), (HASH_METHOD, "SHA-256"), (KEY_TYPE, "RSA-PSS"),
        (CERT_UUID, "u")]) ≠
      .error SigError.missingSignatureMetadata :=
  ⟨(c4_missing_required_fields (fun _ => some [0]) (fun _ => none) 0
      (fun _ => false)
      [(HASH_METHOD, "SHA-256"), (KEY_TYPE, "RSA-PSS"), (CERT_UUID, "u")]).1
      (by decide),
   (c4_missing_required_fields (fun _ => some [0]) (fun _ => none) 0
      (fun _ => false)
      [(SIGNATURE, "s"), (HASH_METHOD, "SHA-256"), (KEY_TYPE, "RSA-PSS"),
        (CERT_UUID, "u")]).2 (by decide)⟩

/-- Claim C6: within one `get_verifier` call the steps run in the fixed order
fields-present, signature decode, hash resolve, key-type resolve, certificate
fetch/validate + key-type match, verifier construct; each conjunct fixes the
result from the earliest failing step for EVERY key manager `km`, so the
certificate collaborator is never contacted when the metadata is incomplete,
the signature is malformed, the hash name is unknown, or the key-type name is
unregistered; and a certificate/key failure is returned as is, so the
constructor never runs after it. -/
theorem c6_fixed_step_order (b64 : B64Decoder) (km : KeyManager) (now : Int)
    (registry : Registry) (ip : Option Metadata) (props : Metadata)
    (sd hn kn cu : String) :
    (should_create_verifier ip = false →
      get_verifier b64 km now registry ip =
        .error SigError.missingSignatureMetadata) ∧
    (dictGet props SIGNATURE = some sd →
     dictGet props HASH_METHOD = some hn →
     dictGet props KEY_TYPE = some kn →
     dictGet props CERT_UUID = some cu →
      ((b64 sd = none →
         get_verifier b64 km now registry (some props) =
           .error SigError.invalidSignatureEncoding) ∧
       (∀ sig, b64 sd = some sig → dictGet HASH_METHODS hn = none →
         get_verifier b64 km now registry (some props) =
           .error (.unsupportedSignatureHashMethod hn)) ∧
       (∀ sig hmv, b64 sd = some sig → dictGet HASH_METHODS hn = some hmv →
         registry kn = none →
         get_verifier b64 km now registry (some props) =
           .error (.unknownKeyType kn)) ∧
       (∀ sig hmv skt e, b64 sd = some sig →
         dictGet HASH_METHODS hn = some hmv → registry kn = some skt →
         get_public_key km now cu skt = .error e →
         get_verifier b64 km now registry (some props) = .error e))) := by
  constructor
  · intro h
    exact get_verifier_missing b64 km now registry ip h
  · intro hs hh hk hc
    refine ⟨?_, ?_, ?_, ?_⟩
    · intro hb
      rw [get_verifier_eq_of_fields b64 km now registry props sd hn kn cu
        hs hh hk hc]
      have h1 : get_signature b64 sd = .error .invalidSignatureEncoding := by
        unfold get_signature
        rw [hb]
      rw [h1, except_error_bind]
    · intro sig hb hdm
      rw [get_verifier_eq_of_fields b64 km now registry props sd hn kn cu
        hs hh hk hc]
      have h1 : get_signature b64 sd = .ok sig := by
        unfold get_signature
        rw [hb]
      have h2 : get_hash_method hn =
          .error (.unsupportedSignatureHashMethod hn) := by
        unfold get_hash_method
        rw [hdm]
      rw [h1, except_ok_bind, h2, except_error_bind]
    · intro sig hmv hb hdm hreg
      rw [get_verifier_eq_of_fields b64 km now registry props sd hn kn cu
        hs hh hk hc]
      have h1 : get_signature b64 sd = .ok sig := by
        unfold get_signature
        rw [hb]
      have h2 : get_hash_method hn = .ok hmv := by
        unfold get_hash_method
        rw [hdm]
      have h3 : SignatureKeyType.lookup registry kn =
          .error (.unknownKeyType kn) := by
        unfold SignatureKeyType.lookup
        rw [hreg]
      rw [h1, except_ok_bind, h2, except_ok_bind, h3, except_error_bind]
    · intro sig hmv skt e hb hdm hreg hpk
      rw [get_verifier_eq_of_fields b64 km now registry props sd hn kn cu
        hs hh hk hc]
      have h1 : get_signature b64 sd = .ok sig := by
        unfold get_signature
        rw [hb]
      have h2 : get_hash_method hn = .ok hmv := by
        unfold get_hash_method
        rw [hdm]
      have h3 : SignatureKeyType.lookup registry kn = .ok skt := by
        unfold SignatureKeyType.lookup
        rw [hreg]
      rw [h1, except_ok_bind, h2, except_ok_bind, h3, except_ok_bind, hpk,
        except_error_bind]

/-- Witness for C6: with complete metadata, a malformed signature, an unknown
hash name, and an unregistered key type each produce their own step's error —
even though the key manager here fails on every id, showing it is not
consulted. -/
theorem c6_fixed_step_order_witness :
    get_verifier (fun _ => none) (fun _ => none) 0
      (initRegistry (fun _ => false))
      (some [(SIGNATURE, "x"), (HASH_METHOD, "SHA-256"), (KEY_TYPE, "RSA-PSS"),
        (CERT_UUID, "u")]) = .error SigError.invalidSignatureEncoding ∧
    get_verifier (fun _ => some [7]) (fun _ => none) 0
      (initRegistry (fun _ => false))
      (some [(SIGNATURE, "x"), (HASH_METHOD, "MD5"), (KEY_TYPE, "RSA-PSS"),
        (CERT_UUID, "u")]) = .error (.unsupportedSignatureHashMethod "MD5") ∧
    get_verifier (fun _ => some [7]) (fun _ => none) 0
      (initRegistry (fun _ => false))
      (some [(SIGNATURE, "x"), (HASH_METHOD, "SHA-256"), (KEY_TYPE, "ECC_FOO"),
        (CERT_UUID, "u")]) = .error (.unknownKeyType "ECC_FOO") :=
  ⟨((c6_fixed_step_order (fun _ => none) (fun _ => none) 0
      (initRegistry (fun _ => false)) none
      [(SIGNATURE, "x"), (HASH_METHOD, "SHA-256"), (KEY_TYPE, "RSA-PSS"),
        (CERT_UUID, "u")] "x" "SHA-256" "RSA-PSS" "u").2
      rfl rfl rfl rfl).1 rfl,
   (((c6_fixed_step_order (fun _ => some [7]) (fun _ => none) 0
      (initRegistry (fun _ => false)) none
      [(SIGNATURE, "x"), (HASH_METHOD, "MD5"), (KEY_TYPE, "RSA-PSS"),
        (CERT_UUID, "u")] "x" "MD5" "RSA-PSS" "u").2
      rfl rfl rfl rfl).2.1) [7] rfl rfl,
   (((c6_fixed_step_order (fun _ => some [7]) (fun _ => none) 0
      (initRegistry (fun _ => false)) none
      [(SIGNATURE, "x"), (HASH_METHOD, "SHA-256"), (KEY_TYPE, "ECC_FOO"),
        (CERT_UUID, "u")] "x" "SHA-256" "ECC_FOO" "u").2
      rfl rfl rfl rfl).2.2.1) [7] HashMethod.sha256 rfl rfl rfl⟩

/-- Claim C5: `create_verifier_for_pss` defaults the MGF to MGF1 over the
declared hash method and the salt length to the PSS maximum; an unrecognized
`mask_gen_algorithm` raises the `UnsupportedAlgorithmName`-cause error, a
non-integer `pss_salt_length` raises the `InvalidParameterValue`-cause error,
and `"64"` yields exactly salt length 64. -/
theorem c5_pss_optional_parameters (sig : List Nat) (hm : HashMethod)
    (pk : PublicKey) (props : Metadata) :
    (dictGet props MASK_GEN_ALG = none → dictGet props PSS_SALT_LENGTH = none →
      create_verifier_for_pss sig hm pk props =
        .ok (.pss pk sig ⟨.MGF1 hm, .maxLength⟩ hm)) ∧
    (∀ m, dictGet props MASK_GEN_ALG = some m →
      dictGet MASK_GEN_ALGORITHMS m = none →
      create_verifier_for_pss sig hm pk props =
        .error (.unsupportedMaskGenAlgorithm m)) ∧
    (∀ s, dictGet props MASK_GEN_ALG = none →
      dictGet props PSS_SALT_LENGTH = some s → pythonInt s = none →
      create_verifier_for_pss sig hm pk props =
        .error (.invalidPssSaltLength s)) ∧
    (dictGet props MASK_GEN_ALG = none →
      dictGet props PSS_SALT_LENGTH = some "64" →
      create_verifier_for_pss sig hm pk props =
        .ok (.pss pk sig ⟨.MGF1 hm, .ofInt 64⟩ hm)) := by
  refine ⟨?_, ?_, ?_, ?_⟩
  · intro h1 h2
    simp [create_verifier_for_pss, h1, h2, except_ok_bind]
  · intro m h1 h2
    simp [create_verifier_for_pss, h1, h2, except_error_bind]
  · intro s h1 h2 h3
    simp [create_verifier_for_pss, h1, h2, h3, except_ok_bind,
      except_error_bind]
  · intro h1 h2
    have h64 : pythonInt "64" = some (64 : Int) := by decide
    simp [create_verifier_for_pss, h1, h2, h64, except_ok_bind]

/-- Witness for C5 at concrete metadata mappings. -/
theorem c5_pss_optional_parameters_witness :
    create_verifier_for_pss [2] .sha256 (.rsa 1) [] =
      .ok (.pss (.rsa 1) [2] ⟨.MGF1 .sha256, .maxLength⟩ .sha256) ∧
    create_verifier_for_pss [2] .sha256 (.rsa 1) [(MASK_GEN_ALG, "MGF2")] =
      .error (.unsupportedMaskGenAlgorithm "MGF2") ∧
    create_verifier_for_pss [2] .sha256 (.rsa 1) [(PSS_SALT_LENGTH, "abc")] =
      .error (.invalidPssSaltLength "abc") ∧
    create_verifier_for_pss [2] .sha256 (.rsa 1) [(PSS_SALT_LENGTH, "64")] =
      .ok (.pss (.rsa 1) [2] ⟨.MGF1 .sha256, .ofInt 64⟩ .sha256) :=
  ⟨(c5_pss_optional_parameters [2] .sha256 (.rsa 1) []).1 rfl rfl,
   (c5_pss_optional_parameters [2] .sha256 (.rsa 1)
      [(MASK_GEN_ALG, "MGF2")]).2.1 "MGF2" rfl rfl,
   (c5_pss_optional_parameters [2] .sha256 (.rsa 1)
      [(PSS_SALT_LENGTH, "abc")]).2.2.1 "abc" rfl rfl (by decide),
   (c5_pss_optional_parameters [2] .sha256 (.rsa 1)
      [(PSS_SALT_LENGTH, "64")]).2.2.2 rfl rfl⟩

/-- Claim C10: with the MGF resolved (absent or `MGF1`), the salt-length
branch raises the `InvalidParameterValue`-cause error exactly when the
Python-`int` parse of the string fails, and otherwise passes the parsed value
through unchanged — with no range check, so negative values and signed or
whitespace-padded strings are accepted. -/
theorem c10_salt_parse_passthrough (sig : List Nat) (hm : HashMethod)
    (pk : PublicKey) (props : Metadata) (s : String)
    (hmga : dictGet props MASK_GEN_ALG = none ∨
      dictGet props MASK_GEN_ALG = some "MGF1")
    (hsl : dictGet props PSS_SALT_LENGTH = some s) :
    (pythonInt s = none →
      create_verifier_for_pss sig hm pk props =
        .error (.invalidPssSaltLength s)) ∧
    (∀ n : Int, pythonInt s = some n →
      create_verifier_for_pss sig hm pk props =
        .ok (.pss pk sig ⟨.MGF1 hm, .ofInt n⟩ hm)) := by
  have hmgf : dictGet MASK_GEN_ALGORITHMS "MGF1" = some MGF.MGF1 := rfl
  constructor
  · intro hp
    rcases hmga with h | h <;>
      simp [create_verifier_for_pss, h, hsl, hp, hmgf, except_ok_bind,
        except_error_bind]
  · intro n hp
    rcases hmga with h | h <;>
      simp [create_verifier_for_pss, h, hsl, hp, hmgf, except_ok_bind,
        except_error_bind]

/-- Witness for C10: `"-1"` is accepted and passed through, `" +64 "` parses
to 64, `"abc"` fails. -/
theorem c10_salt_parse_passthrough_witness :
    create_verifier_for_pss [1] .sha256 (.rsa 0) [(PSS_SALT_LENGTH, "-1")] =
      .ok (.pss (.rsa 0) [1] ⟨.MGF1 .sha256, .ofInt (-1)⟩ .sha256) ∧
    create_verifier_for_pss [1] .sha256 (.rsa 0) [(PSS_SALT_LENGTH, " +64 ")] =
      .ok (.pss (.rsa 0) [1] ⟨.MGF1 .sha256, .ofInt 64⟩ .sha256) ∧
    create_verifier_for_pss [1] .sha256 (.rsa 0) [(PSS_SALT_LENGTH, "abc")] =
      .error (.invalidPssSaltLength "abc") :=
  ⟨(c10_salt_parse_passthrough [1] .sha256 (.rsa 0) [(PSS_SALT_LENGTH, "-1")]
      "-1" (Or.inl rfl) rfl).2 (-1) (by decide),
   (c10_salt_parse_passthrough [1] .sha256 (.rsa 0)
      [(PSS_SALT_LENGTH, " +64 ")] " +64 " (Or.inl rfl) rfl).2 64 (by decide),
   (c10_salt_parse_passthrough [1] .sha256 (.rsa 0) [(PSS_SALT_LENGTH, "abc")]
      "abc" (Or.inl rfl) rfl).1 (by decide)⟩
